import Mathlib

/-!
Shallow embedding of the affordability-estimation engine of the
Stats-Based-Buyer-Breakdown repository (src/app.py .. src/app5.py),
together with proofs settling the specification claims.

The engine is real-valued arithmetic: prices, rates and populations are
modelled as real numbers, and the Python functions become Lean functions
over ℝ, translated line by line from the source.
-/

namespace BuyerBreakdownApp

/-- Tiered minimum-down-payment rule, from calculate_down_payment in
src/app.py (identical in src/app2.py and src/app3.py). -/
noncomputable def calculate_down_payment (price : ℝ) : ℝ :=
  if price ≤ 500000 then price * 0.05
  else if price ≤ 1500000 then 500000 * 0.05 + (price - 500000) * 0.10
  else price * 0.20

/-- Stress-test qualifying-income computation, from calc_stress_test_payment
in src/app.py.  Returns (required annual income, down payment, stress rate,
amortization years), exactly the 4-tuple the source returns. -/
noncomputable def calc_stress_test_payment (price contract_rate : ℝ)
    (amort_years : ℕ) : ℝ × ℝ × ℝ × ℕ :=
  let down_payment := calculate_down_payment price
  let loan := price - down_payment
  let stress_rate := max 0.0525 (contract_rate + 0.02)
  let n_payments := amort_years * 12
  let monthly_rate := stress_rate / 12
  let monthly_payment :=
    loan * (monthly_rate * (1 + monthly_rate) ^ n_payments) /
      ((1 + monthly_rate) ^ n_payments - 1)
  (monthly_payment * 12 / 0.39, down_payment, stress_rate, amort_years)

/-- Log-normal income CDF approximation from lognorm_cdf in src/app.py,
with the source's default parameters mu = 10.45, sigma = 0.95 (every call
site uses the defaults). -/
noncomputable def lognorm_cdf (x : ℝ) : ℝ :=
  if x ≤ 0 then 0
  else 0.5 * (1 + Real.tanh (Real.sqrt (2 / 3) * ((Real.log x - 10.45) / 0.95)))

/-- The survival fraction max(0, 1 - lognorm_cdf income), as computed at
each prob_* line of calculate_buyer_breakdown in src/app.py. -/
noncomputable def survival_fraction (income : ℝ) : ℝ :=
  max 0 (1 - lognorm_cdf income)

/-- Per-segment buyer counts, from the buyers dict of
calculate_buyer_breakdown in src/app.py / src/app2.py. -/
structure BuyerBreakdown where
  single : ℝ
  couple : ℝ
  first_time : ℝ
  repeat_buyers : ℝ
  total : ℝ

/-- Buyer-breakdown estimator, from calculate_buyer_breakdown in
src/app2.py (src/app.py is the same function reading the region rate from
an ambient global instead of a parameter).  Returns (buyers, income_single,
down), matching the source's return triple. -/
noncomputable def calculate_buyer_breakdown (price region_pop region_rate : ℝ) :
    BuyerBreakdown × ℝ × ℝ :=
  let s := calc_stress_test_payment price region_rate 25
  let income_single := s.1
  let down := s.2.1
  let prob_single := survival_fraction income_single
  let single := prob_single * region_pop * 0.40
  let income_couple := income_single * 0.75
  let prob_couple := survival_fraction income_couple
  let couple := prob_couple * region_pop * 0.60
  let income_ft := (calc_stress_test_payment price region_rate 30).1
  let prob_ft := survival_fraction income_ft
  let first_time := prob_ft * region_pop * 0.45
  let income_repeat := (calc_stress_test_payment price region_rate 25).1
  let prob_repeat := survival_fraction income_repeat
  let repeat_buyers := prob_repeat * region_pop * 0.55
  ({ single := single, couple := couple, first_time := first_time,
     repeat_buyers := repeat_buyers, total := single + couple },
   income_single, down)

/-- Outcome of the winner/difference block of src/app.py lines 135-148. -/
inductive CompareResult where
  | property1_wins (margin : ℝ)
  | property2_wins (margin : ℝ)
  | no_significant_difference

/-- The winner/difference comparison of two property scenarios over the
same region, from src/app.py lines 95-98 and 135-148 (same branch logic in
src/app2.py lines 100-144). -/
noncomputable def compare_properties (price1 price2 region_pop region_rate : ℝ) :
    CompareResult :=
  let buyers1 := (calculate_buyer_breakdown price1 region_pop region_rate).1
  let buyers2 := (calculate_buyer_breakdown price2 region_pop region_rate).1
  let buyer_difference := buyers1.total - buyers2.total
  if |price1 - price2| > 50000 then
    if buyer_difference > 0 then CompareResult.property1_wins buyer_difference
    else CompareResult.property2_wins |buyer_difference|
  else CompareResult.no_significant_difference

/-- Radius-scaled population heuristic, from the base_pop lines of
src/app3.py (line 87), src/app4.py (line 75) and src/app5.py (line 74):
city population times (radius/50)^0.7. -/
noncomputable def base_pop (city_pop radius_km : ℝ) : ℝ :=
  city_pop * (radius_km / 50) ^ (0.7 : ℝ)

namespace app4

/-- Down-payment variant of src/app4.py / src/app5.py, which hardcodes the
mid-tier constant 25000 instead of computing 500000 * 0.05. -/
noncomputable def calculate_down_payment (price : ℝ) : ℝ :=
  if price ≤ 500000 then price * 0.05
  else if price ≤ 1500000 then 25000 + (price - 500000) * 0.10
  else price * 0.20

end app4

/-!  Helper lemmas about the qualifying-income computation.  -/

/-- The factor by which the loan principal is multiplied inside
calc_stress_test_payment to obtain the required annual income. -/
noncomputable def income_factor (contract_rate : ℝ) (amort_years : ℕ) : ℝ :=
  let stress_rate := max 0.0525 (contract_rate + 0.02)
  let monthly_rate := stress_rate / 12
  let n_payments := amort_years * 12
  monthly_rate * (1 + monthly_rate) ^ n_payments /
    ((1 + monthly_rate) ^ n_payments - 1) * 12 / 0.39

lemma income_eq (price contract_rate : ℝ) (amort_years : ℕ) :
    (calc_stress_test_payment price contract_rate amort_years).1 =
      (price - calculate_down_payment price) * income_factor contract_rate amort_years := by
  simp only [calc_stress_test_payment, income_factor]
  ring

lemma stress_rate_ge (contract_rate : ℝ) :
    (0.0525 : ℝ) ≤ max 0.0525 (contract_rate + 0.02) :=
  le_max_left _ _

lemma monthly_rate_pos (contract_rate : ℝ) :
    0 < max 0.0525 (contract_rate + 0.02) / 12 := by
  have h := stress_rate_ge contract_rate
  have h0 : (0 : ℝ) < max 0.0525 (contract_rate + 0.02) := by linarith
  linarith

lemma annuity_base_gt_one (contract_rate : ℝ) :
    1 < 1 + max 0.0525 (contract_rate + 0.02) / 12 := by
  have h := monthly_rate_pos contract_rate
  linarith

lemma annuity_pow_gt_one (contract_rate : ℝ) {amort_years : ℕ}
    (h : 1 ≤ amort_years) :
    1 < (1 + max 0.0525 (contract_rate + 0.02) / 12) ^ (amort_years * 12) :=
  one_lt_pow₀ (annuity_base_gt_one contract_rate) (by omega)

lemma income_factor_pos (contract_rate : ℝ) {amort_years : ℕ}
    (h : 1 ≤ amort_years) : 0 < income_factor contract_rate amort_years := by
  have hmr := monthly_rate_pos contract_rate
  have hX := annuity_pow_gt_one contract_rate h
  have hden : 0 < (1 + max 0.0525 (contract_rate + 0.02) / 12) ^ (amort_years * 12) - 1 :=
    sub_pos.mpr hX
  have hnum : 0 < max 0.0525 (contract_rate + 0.02) / 12 *
      (1 + max 0.0525 (contract_rate + 0.02) / 12) ^ (amort_years * 12) :=
    mul_pos hmr (lt_trans one_pos hX)
  simp only [income_factor]
  positivity

lemma down_payment_low {p : ℝ} (h : p ≤ 500000) :
    calculate_down_payment p = p * 0.05 := by
  rw [calculate_down_payment, if_pos h]

lemma down_payment_mid {p : ℝ} (h1 : 500000 < p) (h2 : p ≤ 1500000) :
    calculate_down_payment p = 500000 * 0.05 + (p - 500000) * 0.10 := by
  rw [calculate_down_payment, if_neg (by linarith), if_pos h2]

lemma down_payment_high {p : ℝ} (h : 1500000 < p) :
    calculate_down_payment p = p * 0.20 := by
  rw [calculate_down_payment, if_neg (by linarith), if_neg (by linarith)]

lemma loan_pos {p : ℝ} (hp : 0 < p) : 0 < p - calculate_down_payment p := by
  rw [calculate_down_payment]
  split_ifs <;> linarith

lemma loan_nonneg {p : ℝ} (hp : 0 ≤ p) : 0 ≤ p - calculate_down_payment p := by
  rw [calculate_down_payment]
  split_ifs <;> linarith

lemma loan_lt_loan_below {p1 p2 : ℝ} (h0 : 0 ≤ p1) (h : p1 < p2)
    (h2 : p2 ≤ 1500000) :
    p1 - calculate_down_payment p1 < p2 - calculate_down_payment p2 := by
  rw [calculate_down_payment, calculate_down_payment]
  split_ifs <;> linarith

lemma loan_lt_loan_above {p1 p2 : ℝ} (h1 : 1500000 < p1) (h : p1 < p2) :
    p1 - calculate_down_payment p1 < p2 - calculate_down_payment p2 := by
  rw [calculate_down_payment, calculate_down_payment]
  split_ifs <;> linarith

lemma income_factor_eq (r : ℝ) (a : ℕ) :
    income_factor r a =
      max 0.0525 (r + 0.02) / 12 *
        ((1 + max 0.0525 (r + 0.02) / 12) ^ (a * 12) /
          ((1 + max 0.0525 (r + 0.02) / 12) ^ (a * 12) - 1)) * 12 / 0.39 := by
  simp only [income_factor]
  ring

lemma income_factor_strict_anti (r : ℝ) {a1 a2 : ℕ} (h1 : 1 ≤ a1)
    (h : a1 < a2) : income_factor r a2 < income_factor r a1 := by
  have hmr : 0 < max 0.0525 (r + 0.02) / 12 := monthly_rate_pos r
  have hX1 : 1 < (1 + max 0.0525 (r + 0.02) / 12) ^ (a1 * 12) :=
    annuity_pow_gt_one r h1
  have hX2 : 1 < (1 + max 0.0525 (r + 0.02) / 12) ^ (a2 * 12) :=
    annuity_pow_gt_one r (le_trans h1 (le_of_lt h))
  have hX12 : (1 + max 0.0525 (r + 0.02) / 12) ^ (a1 * 12) <
      (1 + max 0.0525 (r + 0.02) / 12) ^ (a2 * 12) :=
    pow_lt_pow_right (annuity_base_gt_one r) (by omega)
  rw [income_factor_eq, income_factor_eq]
  have key : (1 + max 0.0525 (r + 0.02) / 12) ^ (a2 * 12) /
        ((1 + max 0.0525 (r + 0.02) / 12) ^ (a2 * 12) - 1) <
      (1 + max 0.0525 (r + 0.02) / 12) ^ (a1 * 12) /
        ((1 + max 0.0525 (r + 0.02) / 12) ^ (a1 * 12) - 1) := by
    rw [div_lt_div_iff (by linarith) (by linarith)]
    nlinarith
  have step1 := mul_lt_mul_of_pos_left key hmr
  have step2 : max 0.0525 (r + 0.02) / 12 *
        ((1 + max 0.0525 (r + 0.02) / 12) ^ (a2 * 12) /
          ((1 + max 0.0525 (r + 0.02) / 12) ^ (a2 * 12) - 1)) * 12 <
      max 0.0525 (r + 0.02) / 12 *
        ((1 + max 0.0525 (r + 0.02) / 12) ^ (a1 * 12) /
          ((1 + max 0.0525 (r + 0.02) / 12) ^ (a1 * 12) - 1)) * 12 := by
    linarith
  exact (div_lt_div_right (by norm_num)).mpr step2

/-!  Helper lemmas about the tanh-based normal-CDF approximation.  -/

lemma tanh_eq_one_sub (x : ℝ) :
    Real.tanh x = 1 - 2 / (Real.exp x ^ 2 + 1) := by
  have hE : 0 < Real.exp x := Real.exp_pos x
  have h1 : Real.exp x + (Real.exp x)⁻¹ ≠ 0 := by positivity
  have h2 : Real.exp x ^ 2 + 1 ≠ 0 := by positivity
  rw [Real.tanh_eq_sinh_div_cosh, Real.sinh_eq, Real.cosh_eq, Real.exp_neg]
  field_simp
  ring

lemma tanh_lt_one (x : ℝ) : Real.tanh x < 1 := by
  rw [tanh_eq_one_sub]
  have h : 0 < 2 / (Real.exp x ^ 2 + 1) := by positivity
  linarith

lemma neg_one_lt_tanh (x : ℝ) : -1 < Real.tanh x := by
  rw [tanh_eq_one_sub]
  have h : (0 : ℝ) < Real.exp x ^ 2 + 1 := by positivity
  have h2 : 2 / (Real.exp x ^ 2 + 1) < 2 := by
    rw [div_lt_iff h]
    nlinarith [pow_pos (Real.exp_pos x) 2]
  linarith

lemma tanh_mono {x y : ℝ} (h : x ≤ y) : Real.tanh x ≤ Real.tanh y := by
  rw [tanh_eq_one_sub, tanh_eq_one_sub]
  have hE : Real.exp x ≤ Real.exp y := Real.exp_le_exp.mpr h
  have h2 : Real.exp x ^ 2 + 1 ≤ Real.exp y ^ 2 + 1 := by
    nlinarith [Real.exp_pos x]
  have h3 : 2 / (Real.exp y ^ 2 + 1) ≤ 2 / (Real.exp x ^ 2 + 1) := by
    gcongr
  linarith

lemma tanh_strict_mono {x y : ℝ} (h : x < y) : Real.tanh x < Real.tanh y := by
  rw [tanh_eq_one_sub, tanh_eq_one_sub]
  have hE : Real.exp x < Real.exp y := Real.exp_lt_exp.mpr h
  have h2 : Real.exp x ^ 2 + 1 < Real.exp y ^ 2 + 1 := by
    nlinarith [Real.exp_pos x]
  have h3 : 2 / (Real.exp y ^ 2 + 1) < 2 / (Real.exp x ^ 2 + 1) := by
    gcongr
  linarith

lemma lognorm_cdf_nonneg (x : ℝ) : 0 ≤ lognorm_cdf x := by
  rw [lognorm_cdf]
  split
  · exact le_refl 0
  · have h := neg_one_lt_tanh (Real.sqrt (2 / 3) * ((Real.log x - 10.45) / 0.95))
    nlinarith

lemma lognorm_cdf_lt_one (x : ℝ) : lognorm_cdf x < 1 := by
  rw [lognorm_cdf]
  split
  · norm_num
  · have h := tanh_lt_one (Real.sqrt (2 / 3) * ((Real.log x - 10.45) / 0.95))
    nlinarith

lemma lognorm_cdf_mono {x y : ℝ} (h : x ≤ y) :
    lognorm_cdf x ≤ lognorm_cdf y := by
  by_cases hx : x ≤ 0
  · rw [lognorm_cdf, if_pos hx]
    exact lognorm_cdf_nonneg y
  · have hx' : 0 < x := not_le.mp hx
    have hy' : 0 < y := lt_of_lt_of_le hx' h
    rw [lognorm_cdf, if_neg hx, lognorm_cdf, if_neg (not_le.mpr hy')]
    have hlog : Real.log x ≤ Real.log y := (Real.log_le_log_iff hx' hy').mpr h
    have hz : (Real.log x - 10.45) / 0.95 ≤ (Real.log y - 10.45) / 0.95 :=
      (div_le_div_right (by norm_num)).mpr (by linarith)
    have ht := tanh_mono (mul_le_mul_of_nonneg_left hz (Real.sqrt_nonneg (2 / 3)))
    linarith

lemma lognorm_cdf_strict_mono {x y : ℝ} (hx : 0 < x) (h : x < y) :
    lognorm_cdf x < lognorm_cdf y := by
  have hy' : 0 < y := lt_trans hx h
  rw [lognorm_cdf, if_neg (not_le.mpr hx), lognorm_cdf, if_neg (not_le.mpr hy')]
  have hlog : Real.log x < Real.log y := Real.log_lt_log hx h
  have hz : (Real.log x - 10.45) / 0.95 < (Real.log y - 10.45) / 0.95 :=
    (div_lt_div_right (by norm_num)).mpr (by linarith)
  have hs : (0 : ℝ) < Real.sqrt (2 / 3) := Real.sqrt_pos.mpr (by norm_num)
  have ht := tanh_strict_mono (mul_lt_mul_of_pos_left hz hs)
  linarith

lemma survival_fraction_eq (x : ℝ) :
    survival_fraction x = 1 - lognorm_cdf x := by
  rw [survival_fraction, max_eq_right]
  have h := lognorm_cdf_lt_one x
  linarith

lemma survival_fraction_anti {x y : ℝ} (h : x ≤ y) :
    survival_fraction y ≤ survival_fraction x := by
  have := lognorm_cdf_mono h
  exact max_le_max (le_refl 0) (by linarith)

lemma survival_fraction_strict_anti {x y : ℝ} (hx : 0 < x) (h : x < y) :
    survival_fraction y < survival_fraction x := by
  rw [survival_fraction_eq, survival_fraction_eq]
  have := lognorm_cdf_strict_mono hx h
  linarith

lemma total_eq (price pop rate : ℝ) :
    (calculate_buyer_breakdown price pop rate).1.total =
      survival_fraction (calc_stress_test_payment price rate 25).1 * pop * 0.40 +
      survival_fraction ((calc_stress_test_payment price rate 25).1 * 0.75) *
        pop * 0.60 := rfl

lemma income_pos {p : ℝ} (rate : ℝ) (hp : 0 < p) {a : ℕ} (ha : 1 ≤ a) :
    0 < (calc_stress_test_payment p rate a).1 := by
  rw [income_eq]
  exact mul_pos (loan_pos hp) (income_factor_pos rate ha)

lemma total_strict_anti {p1 p2 : ℝ} (pop rate : ℝ) (hpop : 0 < pop)
    (h0 : 0 < p1) (h12 : p1 < p2) (h2 : p2 ≤ 1500000) :
    (calculate_buyer_breakdown p2 pop rate).1.total <
      (calculate_buyer_breakdown p1 pop rate).1.total := by
  rw [total_eq, total_eq]
  have hi1 : 0 < (calc_stress_test_payment p1 rate 25).1 :=
    income_pos rate h0 (by norm_num)
  have hlt : (calc_stress_test_payment p1 rate 25).1 <
      (calc_stress_test_payment p2 rate 25).1 := by
    rw [income_eq, income_eq]
    exact mul_lt_mul_of_pos_right (loan_lt_loan_below (le_of_lt h0) h12 h2)
      (income_factor_pos rate (by norm_num))
  have s1 := survival_fraction_strict_anti hi1 hlt
  have s2 := survival_fraction_strict_anti
    (show 0 < (calc_stress_test_payment p1 rate 25).1 * 0.75 by linarith)
    (show (calc_stress_test_payment p1 rate 25).1 * 0.75 <
      (calc_stress_test_payment p2 rate 25).1 * 0.75 by linarith)
  have m1 := mul_lt_mul_of_pos_right s1 hpop
  have m2 := mul_lt_mul_of_pos_right s2 hpop
  linarith

/-!  Claim theorems.  -/

/-- C1: for every non-negative price, calculate_down_payment returns
0.05 * price when price ≤ 500000; 0.05 * 500000 plus 0.10 * (price - 500000)
when 500000 < price ≤ 1500000; and 0.20 * price when price > 1500000. -/
theorem c1_down_payment_tiers (price : ℝ) (hp : 0 ≤ price) :
    (price ≤ 500000 → calculate_down_payment price = 0.05 * price) ∧
    (500000 < price → price ≤ 1500000 →
      calculate_down_payment price = 0.05 * 500000 + 0.10 * (price - 500000)) ∧
    (1500000 < price → calculate_down_payment price = 0.20 * price) := by
  refine ⟨fun h => ?_, fun h1 h2 => ?_, fun h => ?_⟩
  · rw [calculate_down_payment, if_pos h]; ring
  · rw [calculate_down_payment, if_neg (by linarith), if_pos h2]; ring
  · rw [calculate_down_payment, if_neg (by linarith), if_neg (by linarith)]; ring

/-- Witness for C1 at the concrete prices 400000, 800000 and 2000000. -/
theorem c1_down_payment_tiers_witness :
    calculate_down_payment 400000 = 0.05 * 400000 ∧
    calculate_down_payment 800000 = 0.05 * 500000 + 0.10 * (800000 - 500000) ∧
    calculate_down_payment 2000000 = 0.20 * 2000000 :=
  ⟨(c1_down_payment_tiers 400000 (by norm_num)).1 (by norm_num),
   (c1_down_payment_tiers 800000 (by norm_num)).2.1 (by norm_num) (by norm_num),
   (c1_down_payment_tiers 2000000 (by norm_num)).2.2 (by norm_num)⟩

/-- C2 counterexample: the required annual income is not monotonically
increasing in price over the whole positive range: at contract rate 0.045
and a 25-year term, raising the price from 1500000 to 1600000 lowers the
required income, because the down-payment rule jumps from the tiered
formula to a flat 20% at the 1500000 boundary, shrinking the loan. -/
theorem c2_price_monotonicity_counterexample :
    (1500000 : ℝ) < 1600000 ∧
    (calc_stress_test_payment 1600000 0.045 25).1 <
      (calc_stress_test_payment 1500000 0.045 25).1 := by
  refine ⟨by norm_num, ?_⟩
  rw [income_eq, income_eq]
  have hdp1 : calculate_down_payment 1500000 = 125000 := by
    rw [down_payment_mid (by norm_num) (by norm_num)]
    norm_num
  have hdp2 : calculate_down_payment 1600000 = 320000 := by
    rw [down_payment_high (by norm_num)]
    norm_num
  rw [hdp1, hdp2]
  have hF := income_factor_pos 0.045 (by norm_num : 1 ≤ 25)
  nlinarith

/-- C2 (amended): the required annual income is strictly increasing in
price within the tiered down-payment range (prices up to 1500000) and
strictly increasing again beyond 1500000 (it drops only across the
1500000 boundary), and it is strictly decreasing in amortization years
for every positive price. -/
theorem c2_income_monotonicity_amended :
    (∀ (r : ℝ) (a : ℕ) (p1 p2 : ℝ), 1 ≤ a → 0 ≤ p1 → p1 < p2 →
      p2 ≤ 1500000 →
      (calc_stress_test_payment p1 r a).1 < (calc_stress_test_payment p2 r a).1) ∧
    (∀ (r : ℝ) (a : ℕ) (p1 p2 : ℝ), 1 ≤ a → 1500000 < p1 → p1 < p2 →
      (calc_stress_test_payment p1 r a).1 < (calc_stress_test_payment p2 r a).1) ∧
    (∀ (r p : ℝ) (a1 a2 : ℕ), 0 < p → 1 ≤ a1 → a1 < a2 →
      (calc_stress_test_payment p r a2).1 < (calc_stress_test_payment p r a1).1) := by
  refine ⟨fun r a p1 p2 ha h0 h12 h2 => ?_, fun r a p1 p2 ha h1 h12 => ?_,
    fun r p a1 a2 hp h1 h12 => ?_⟩
  · rw [income_eq, income_eq]
    exact mul_lt_mul_of_pos_right (loan_lt_loan_below h0 h12 h2)
      (income_factor_pos r ha)
  · rw [income_eq, income_eq]
    exact mul_lt_mul_of_pos_right (loan_lt_loan_above h1 h12)
      (income_factor_pos r ha)
  · rw [income_eq, income_eq]
    exact mul_lt_mul_of_pos_left (income_factor_strict_anti r h1 h12)
      (loan_pos hp)

/-- Witness for the amended C2 at concrete prices and terms. -/
theorem c2_income_monotonicity_amended_witness :
    (calc_stress_test_payment 800000 0.045 25).1 <
      (calc_stress_test_payment 1000000 0.045 25).1 ∧
    (calc_stress_test_payment 1600000 0.045 25).1 <
      (calc_stress_test_payment 1700000 0.045 25).1 ∧
    (calc_stress_test_payment 800000 0.045 30).1 <
      (calc_stress_test_payment 800000 0.045 25).1 :=
  ⟨c2_income_monotonicity_amended.1 0.045 25 800000 1000000 (by norm_num)
      (by norm_num) (by norm_num) (by norm_num),
   c2_income_monotonicity_amended.2.1 0.045 25 1600000 1700000 (by norm_num)
      (by norm_num) (by norm_num),
   c2_income_monotonicity_amended.2.2 0.045 800000 25 30 (by norm_num)
      (by norm_num) (by norm_num)⟩

/-- C3: the stress rate returned by calc_stress_test_payment equals
max(0.0525, contract_rate + 0.02); contract rate 0.03 yields 0.0525 (floor
active) and contract rate 0.06 yields 0.08 (contract-driven). -/
theorem c3_stress_rate (price contract_rate : ℝ) (amort_years : ℕ) :
    (calc_stress_test_payment price contract_rate amort_years).2.2.1 =
      max 0.0525 (contract_rate + 0.02) ∧
    (calc_stress_test_payment price 0.03 amort_years).2.2.1 = 0.0525 ∧
    (calc_stress_test_payment price 0.06 amort_years).2.2.1 = 0.08 := by
  refine ⟨rfl, ?_, ?_⟩
  · show max (0.0525 : ℝ) (0.03 + 0.02) = 0.0525
    rw [max_eq_left (by norm_num)]
  · show max (0.0525 : ℝ) (0.06 + 0.02) = 0.08
    rw [max_eq_right (by norm_num)]
    norm_num

/-- C4 counterexample: two prices 1400000 and 1606250 differ by more than
50000 yet produce exactly equal totals (the down-payment tier jump makes
both loans 1285000), and the comparison still reports Property 2 as winner
(margin 0) even though it does not have the larger total. -/
theorem c4_compare_counterexample :
    |(1400000 : ℝ) - 1606250| > 50000 ∧
    (calculate_buyer_breakdown 1400000 20000000 0.045).1.total =
      (calculate_buyer_breakdown 1606250 20000000 0.045).1.total ∧
    compare_properties 1400000 1606250 20000000 0.045 =
      CompareResult.property2_wins 0 := by
  have habs : |(1400000 : ℝ) - 1606250| > 50000 := by
    rw [abs_sub_comm, abs_of_nonneg (by norm_num)]
    norm_num
  have hinc : (calc_stress_test_payment 1400000 0.045 25).1 =
      (calc_stress_test_payment 1606250 0.045 25).1 := by
    rw [income_eq, income_eq]
    have h1 : calculate_down_payment 1400000 = 115000 := by
      rw [down_payment_mid (by norm_num) (by norm_num)]
      norm_num
    have h2 : calculate_down_payment 1606250 = 321250 := by
      rw [down_payment_high (by norm_num)]
      norm_num
    rw [h1, h2]
    norm_num
  have htot : (calculate_buyer_breakdown 1400000 20000000 0.045).1.total =
      (calculate_buyer_breakdown 1606250 20000000 0.045).1.total := by
    rw [total_eq, total_eq, hinc]
  refine ⟨habs, htot, ?_⟩
  simp only [compare_properties]
  rw [if_pos habs]
  have hd : (calculate_buyer_breakdown 1400000 20000000 0.045).1.total -
      (calculate_buyer_breakdown 1606250 20000000 0.045).1.total = 0 := by
    rw [htot, sub_self]
  rw [hd, if_neg (by norm_num), abs_zero]

/-- C4 (amended): when the two prices differ by more than 50000 the
comparison reports Property 1 as winner exactly when its total is strictly
larger, with margin the absolute difference of totals; when Property 1's
total is not strictly larger (including exact ties) Property 2 is reported
as winner with the same margin; when the prices differ by at most 50000 no
winner is reported. -/
theorem c4_compare_amended (p1 p2 pop rate : ℝ) :
    (|p1 - p2| > 50000 →
      ((calculate_buyer_breakdown p2 pop rate).1.total <
          (calculate_buyer_breakdown p1 pop rate).1.total →
        compare_properties p1 p2 pop rate =
          CompareResult.property1_wins
            |(calculate_buyer_breakdown p1 pop rate).1.total -
              (calculate_buyer_breakdown p2 pop rate).1.total|) ∧
      ((calculate_buyer_breakdown p1 pop rate).1.total ≤
          (calculate_buyer_breakdown p2 pop rate).1.total →
        compare_properties p1 p2 pop rate =
          CompareResult.property2_wins
            |(calculate_buyer_breakdown p1 pop rate).1.total -
              (calculate_buyer_breakdown p2 pop rate).1.total|)) ∧
    (¬ |p1 - p2| > 50000 →
      compare_properties p1 p2 pop rate =
        CompareResult.no_significant_difference) := by
  refine ⟨fun habs => ⟨fun hgt => ?_, fun hle => ?_⟩, fun habs => ?_⟩
  · simp only [compare_properties]
    rw [if_pos habs, if_pos (sub_pos.mpr hgt), abs_of_pos (sub_pos.mpr hgt)]
  · simp only [compare_properties]
    rw [if_pos habs, if_neg (not_lt.mpr (sub_nonpos.mpr hle))]
  · simp only [compare_properties]
    rw [if_neg habs]

/-- Witness for the amended C4: a decisive comparison each way around at
prices 800000 and 1000000, and a no-significant-difference comparison at
prices 800000 and 810000 (all over the National region). -/
theorem c4_compare_amended_witness :
    compare_properties 800000 1000000 20000000 0.045 =
      CompareResult.property1_wins
        |(calculate_buyer_breakdown 800000 20000000 0.045).1.total -
          (calculate_buyer_breakdown 1000000 20000000 0.045).1.total| ∧
    compare_properties 1000000 800000 20000000 0.045 =
      CompareResult.property2_wins
        |(calculate_buyer_breakdown 1000000 20000000 0.045).1.total -
          (calculate_buyer_breakdown 800000 20000000 0.045).1.total| ∧
    compare_properties 800000 810000 20000000 0.045 =
      CompareResult.no_significant_difference := by
  have ht : (calculate_buyer_breakdown 1000000 20000000 0.045).1.total <
      (calculate_buyer_breakdown 800000 20000000 0.045).1.total :=
    total_strict_anti 20000000 0.045 (by norm_num) (by norm_num) (by norm_num)
      (by norm_num)
  have habs1 : |(800000 : ℝ) - 1000000| > 50000 := by
    rw [abs_sub_comm, abs_of_nonneg (by norm_num)]
    norm_num
  have habs2 : |(1000000 : ℝ) - 800000| > 50000 := by
    rw [abs_of_nonneg (by norm_num)]
    norm_num
  have habs3 : ¬ |(800000 : ℝ) - 810000| > 50000 := by
    rw [abs_sub_comm, abs_of_nonneg (by norm_num)]
    norm_num
  exact ⟨((c4_compare_amended 800000 1000000 20000000 0.045).1 habs1).1 ht,
    ((c4_compare_amended 1000000 800000 20000000 0.045).1 habs2).2 (le_of_lt ht),
    (c4_compare_amended 800000 810000 20000000 0.045).2 habs3⟩

/-- C5: the Total field of the buyer breakdown is the Single count plus the
Couple count only; the First-Time and Repeat counts are not added in. -/
theorem c5_total_is_single_plus_couple (price region_pop region_rate : ℝ) :
    (calculate_buyer_breakdown price region_pop region_rate).1.total =
      (calculate_buyer_breakdown price region_pop region_rate).1.single +
      (calculate_buyer_breakdown price region_pop region_rate).1.couple := rfl

/-- C6: lognorm_cdf returns 0 for every income ≤ 0, is monotonically
non-decreasing over all inputs, and the survival fraction
max(0, 1 - lognorm_cdf income) lies in [0, 1] for every positive income. -/
theorem c6_lognorm_cdf_properties :
    (∀ x : ℝ, x ≤ 0 → lognorm_cdf x = 0) ∧
    (∀ x y : ℝ, x ≤ y → lognorm_cdf x ≤ lognorm_cdf y) ∧
    (∀ x : ℝ, 0 < x → 0 ≤ survival_fraction x ∧ survival_fraction x ≤ 1) := by
  refine ⟨fun x hx => by rw [lognorm_cdf, if_pos hx],
    fun x y h => lognorm_cdf_mono h,
    fun x _ => ⟨le_max_left _ _, ?_⟩⟩
  rw [survival_fraction]
  have h := lognorm_cdf_nonneg x
  exact max_le (by norm_num) (by linarith)

/-- Witness for C6 at incomes -1, 1 ≤ 2, and 100000. -/
theorem c6_lognorm_cdf_properties_witness :
    lognorm_cdf (-1) = 0 ∧ lognorm_cdf 1 ≤ lognorm_cdf 2 ∧
    (0 ≤ survival_fraction 100000 ∧ survival_fraction 100000 ≤ 1) :=
  ⟨c6_lognorm_cdf_properties.1 (-1) (by norm_num),
   c6_lognorm_cdf_properties.2.1 1 2 (by norm_num),
   c6_lognorm_cdf_properties.2.2 100000 (by norm_num)⟩

/-- C7: for every contract rate and every amortization of at least one
year, the stress rate used by calc_stress_test_payment is at least 0.0525,
the monthly rate is strictly positive, and the annuity denominator
(1 + monthly_rate)^n_payments - 1 is nonzero, so the division in the
monthly-payment formula is well-defined. -/
theorem c7_annuity_denominator_nonzero (price contract_rate : ℝ)
    (amort_years : ℕ) (h : 1 ≤ amort_years) :
    0.0525 ≤ (calc_stress_test_payment price contract_rate amort_years).2.2.1 ∧
    0 < (calc_stress_test_payment price contract_rate amort_years).2.2.1 / 12 ∧
    (1 + (calc_stress_test_payment price contract_rate amort_years).2.2.1 / 12) ^
        (amort_years * 12) - 1 ≠ 0 := by
  have e : (calc_stress_test_payment price contract_rate amort_years).2.2.1 =
      max 0.0525 (contract_rate + 0.02) := rfl
  rw [e]
  exact ⟨stress_rate_ge _, monthly_rate_pos _,
    ne_of_gt (sub_pos.mpr (annuity_pow_gt_one _ h))⟩

/-- Witness for C7 at price 800000, contract rate 0.045, 25-year term. -/
theorem c7_annuity_denominator_nonzero_witness :
    0.0525 ≤ (calc_stress_test_payment 800000 0.045 25).2.2.1 ∧
    0 < (calc_stress_test_payment 800000 0.045 25).2.2.1 / 12 ∧
    (1 + (calc_stress_test_payment 800000 0.045 25).2.2.1 / 12) ^ (25 * 12) - 1 ≠ 0 :=
  c7_annuity_denominator_nonzero 800000 0.045 25 (by norm_num)

/-- C9: the closed-form down-payment variant (src/app.py) and the variant
hardcoding the mid-tier constant 25000 (src/app4.py) agree at every price. -/
theorem c9_down_payment_variants_agree (price : ℝ) :
    app4.calculate_down_payment price = calculate_down_payment price := by
  rw [app4.calculate_down_payment, calculate_down_payment]
  norm_num

/-- C10: for every non-negative price and region rate, the Couple
segment's effective income threshold (0.75 times the Single qualifying
income, as computed in calculate_buyer_breakdown) is at most the Single
threshold, and therefore the Couple survival fraction is at least the
Single survival fraction. -/
theorem c10_couple_threshold_below_single (price region_rate : ℝ)
    (hp : 0 ≤ price) :
    (calc_stress_test_payment price region_rate 25).1 * 0.75 ≤
      (calc_stress_test_payment price region_rate 25).1 ∧
    survival_fraction (calc_stress_test_payment price region_rate 25).1 ≤
      survival_fraction ((calc_stress_test_payment price region_rate 25).1 * 0.75) := by
  have hinc : 0 ≤ (calc_stress_test_payment price region_rate 25).1 := by
    rw [income_eq]
    exact mul_nonneg (loan_nonneg hp)
      (le_of_lt (income_factor_pos region_rate (by norm_num)))
  have hle : (calc_stress_test_payment price region_rate 25).1 * 0.75 ≤
      (calc_stress_test_payment price region_rate 25).1 := by linarith
  exact ⟨hle, survival_fraction_anti hle⟩

/-- Witness for C10 at price 800000 and region rate 0.045. -/
theorem c10_couple_threshold_below_single_witness :
    (calc_stress_test_payment 800000 0.045 25).1 * 0.75 ≤
      (calc_stress_test_payment 800000 0.045 25).1 ∧
    survival_fraction (calc_stress_test_payment 800000 0.045 25).1 ≤
      survival_fraction ((calc_stress_test_payment 800000 0.045 25).1 * 0.75) :=
  c10_couple_threshold_below_single 800000 0.045 (by norm_num)

/-- C8: in the map/radius variant, the population figure fed into the
buyer-count estimate is cityPopulation * (radiusKm/50)^0.7, with no clamp
to the city's actual population: at radius 100 km it strictly exceeds any
positive city population. -/
theorem c8_base_pop_power_law :
    (∀ city_pop radius_km : ℝ,
      base_pop city_pop radius_km = city_pop * (radius_km / 50) ^ (0.7 : ℝ)) ∧
    (∀ city_pop : ℝ, 0 < city_pop → city_pop < base_pop city_pop 100) := by
  refine ⟨fun _ _ => rfl, fun cp hcp => ?_⟩
  rw [base_pop]
  have h2 : ((100 : ℝ) / 50) = 2 := by norm_num
  rw [h2]
  have h : (1 : ℝ) < (2 : ℝ) ^ (0.7 : ℝ) :=
    Real.one_lt_rpow (by norm_num) (by norm_num)
  have h3 := mul_lt_mul_of_pos_left h hcp
  linarith

/-- Witness for C8 at Calgary's population 1600000 and a 60 km radius. -/
theorem c8_base_pop_power_law_witness :
    base_pop 1600000 60 = 1600000 * ((60 : ℝ) / 50) ^ (0.7 : ℝ) ∧
    (1600000 : ℝ) < base_pop 1600000 100 :=
  ⟨c8_base_pop_power_law.1 1600000 60,
   c8_base_pop_power_law.2 1600000 (by norm_num)⟩

end BuyerBreakdownApp
